import Mathlib

/-!
Verification of the Mastodon polling channel (`src/nanobot/channels/mastodon.py`)
against its natural-language specification.

The adapter is embedded shallowly: the per-candidate processing, the three
per-source poll loops, the seeding tick, the outbound sender and the startup
sequence become pure Lean functions over an explicit `ChannelState`.  Network
fetches are modelled by passing the fetched lists (`conversations`,
`timeline_home`, `notifications`) as inputs to a tick; log lines carry no
state and are not modelled, except where a claim is about reaching a
particular log-and-return branch, which is modelled as a distinguished
result constructor.  Python strings are Lean `String`s; a missing / `None`
field that the code immediately converts with `str(_get(x, k, ""))` is
modelled as `""`, while fields the code tests with `if not x:` before use
are modelled as `Option`.
-/

namespace Mastodon

/-- A Mastodon account as the adapter reads it: `_get(account, "id", "")`
yields `""` when absent (modelled by the plain string), while
`_get(account, "acct", author_id)` defaults dynamically, so `acct` stays an
`Option`. -/
structure Account where
  id : String
  acct : Option String
deriving DecidableEq

/-- A status as the adapter reads it: `id`, `visibility` and `content` are
read with default `""` (and `or ""`), `account` is tested for truthiness
before use. -/
structure Status where
  id : String
  visibility : String
  content : String
  account : Option Account
deriving DecidableEq

/-- One entry of the `conversations` page: its `id` (read with default `""`)
and its `last_status`, tested with `if not last:` before use. -/
structure Conversation where
  id : String
  last_status : Option Status
deriving DecidableEq

/-- One entry of the `notifications` page: its `type` and the attached
`status`, tested for truthiness before use. -/
structure Notification where
  type : String
  status : Option Status
deriving DecidableEq

/-- The mutable state of one `MastodonChannel` session after a successful
bootstrap: `_me_id`, the `_reply_to_id` map (a Python dict, modelled as an
association list with overwrite-on-set), the `_seen_status_ids` set and the
`_first_poll_done` flag. -/
structure ChannelState where
  me_id : String
  reply_to_id : List (String × String)
  seen_status_ids : Finset String
  first_poll_done : Bool
deriving DecidableEq

/-- Dict assignment `m[k] = v`: overwrite the first binding of `k`, append
when absent. -/
def mapSet (m : List (String × String)) (k v : String) : List (String × String) :=
  match m with
  | [] => [(k, v)]
  | (k', v') :: rest => if k' = k then (k, v) :: rest else (k', v') :: mapSet rest k v

/-- Dict lookup `m.get(k)`: first binding of `k`, `none` when absent. -/
def mapGet (m : List (String × String)) (k : String) : Option String :=
  match m with
  | [] => none
  | (k', v') :: rest => if k' = k then some v' else mapGet rest k

/-- Python `str.lower()` restricted to ASCII case folding, which covers every
visibility value the adapter compares. -/
def lowerStr (s : String) : String :=
  String.mk (s.data.map Char.toLower)

/-- A character Python's `str.strip()` removes: the Unicode whitespace set of
`str.isspace()`. -/
def isPySpace (c : Char) : Bool :=
  c = ' ' || c = '\t' || c = '\n' || c = '\r' || c = '\x0b' || c = '\x0c' ||
  c = '\x1c' || c = '\x1d' || c = '\x1e' || c = '\x1f' || c = '\x85' ||
  c = '\u00A0' || c = '\u1680' || ('\u2000' ≤ c && c ≤ '\u200A') ||
  c = '\u2028' || c = '\u2029' || c = '\u202F' || c = '\u205F' || c = '\u3000'

/-- Python `str.strip()`: drop leading and trailing whitespace. -/
def pyStrip (s : String) : String :=
  String.mk (((s.data.dropWhile isPySpace).reverse.dropWhile isPySpace).reverse)

/-- `re.sub(r"<[^>]+>", "", text)` as a character scanner: at `<`, a match
needs at least one non-`>` character followed by `>`; an unmatched `<` (no
closing `>`, or an immediate `>`) is kept literally, exactly as the regex
leaves it.  The first argument buffers the characters seen since a pending
`<` (in reverse), `none` when outside a potential tag. -/
def stripTagsGo (buf : Option (List Char)) : List Char → List Char
  | [] =>
    match buf with
    | none => []
    | some b => '<' :: b.reverse
  | c :: rest =>
    match buf with
    | none =>
      if c = '<' then stripTagsGo (some []) rest
      else c :: stripTagsGo none rest
    | some b =>
      if c = '>' then
        if b = [] then '<' :: '>' :: stripTagsGo none rest
        else stripTagsGo none rest
      else stripTagsGo (some (c :: b)) rest

/-- The HTML entities the adapter's inputs use, as Python's `html.unescape`
decodes them (note `&nbsp;` decodes to U+00A0, a non-breaking space, not the
ASCII space).  Each entry is the entity without its leading `&`, paired with
its decoded character. -/
def entityTable : List (List Char × Char) :=
  [("amp;".data, '&'), ("lt;".data, '<'), ("gt;".data, '>'),
   ("quot;".data, '"'), ("#39;".data, '\''), ("apos;".data, '\''),
   ("nbsp;".data, '\u00A0')]

/-- Match `pat` as a prefix of `cs`; on success return what follows it. -/
def matchChars : List Char → List Char → Option (List Char)
  | [], cs => some cs
  | _ :: _, [] => none
  | p :: ps, c :: cs => if c = p then matchChars ps cs else none

/-- Try each table entry against the characters following a `&`. -/
def findEntity : List (List Char × Char) → List Char → Option (Char × List Char)
  | [], _ => none
  | (pat, ch) :: rest, cs =>
    match matchChars pat cs with
    | some rem => some (ch, rem)
    | none => findEntity rest cs

/-- Python's `html.unescape`, modelled from the spec's "decode entities" for
the entity table above: replace each recognised `&entity;` by its character,
leave an unrecognised `&` literal.  Fuel-indexed (each step consumes at least
one character, so fuel = length computes the whole string). -/
def unescapeAux : Nat → List Char → List Char
  | 0, cs => cs
  | _ + 1, [] => []
  | n + 1, c :: rest =>
    if c = '&' then
      match findEntity entityTable rest with
      | some (ch, rem) => ch :: unescapeAux n rem
      | none => '&' :: unescapeAux n rest
    else c :: unescapeAux n rest

/-- `html.unescape` on a string. -/
def unescapeStr (s : String) : String :=
  String.mk (unescapeAux s.data.length s.data)

/-- `_strip_html` (mastodon.py lines 19–24): empty in, empty out; otherwise
strip tags with the regex, decode entities, strip whitespace. -/
def _strip_html (html : String) : String :=
  if html = "" then ""
  else pyStrip (unescapeStr (String.mk (stripTagsGo none html.data)))

/-- The inbound message `_process_incoming_dm` hands to the bus through
`_handle_message` (lines 298–308), its metadata dict flattened into fields. -/
structure InboundMessage where
  sender_id : String
  chat_id : String
  content : String
  meta_conversation_id : String
  meta_status_id : String
  meta_acct : String
  meta_in_reply_to_id : String
deriving DecidableEq

/-- `_process_incoming_dm` (lines 276–308): drop when the status id is empty
or already seen; otherwise add it to the seen set, clear the whole set when
its size exceeds 500, sanitize the content (`or "[empty]"` on an empty
result), record the reply target and dispatch one inbound message. -/
def _process_incoming_dm (st : ChannelState) (status : Status)
    (chat_id author_id acct : String) : ChannelState × Option InboundMessage :=
  let status_id := status.id
  if status_id = "" ∨ status_id ∈ st.seen_status_ids then (st, none)
  else
    let seen1 := insert status_id st.seen_status_ids
    let seen2 := if 500 < seen1.card then (∅ : Finset String) else seen1
    let c := pyStrip (_strip_html status.content)
    let content := if c = "" then "[empty]" else c
    let sender_id := author_id ++ "|" ++ acct
    ({ st with seen_status_ids := seen2,
               reply_to_id := mapSet st.reply_to_id chat_id status_id },
     some ⟨sender_id, chat_id, content, chat_id, status_id, acct, status_id⟩)

/-- One iteration of the conversations loop (lines 181–207): skip a missing
last status, a missing account, a self-authored status or an empty
conversation id; in seed mode record the (non-empty) status id into the seen
set and the reply map, otherwise run `_process_incoming_dm`.  The best-effort
`conversations_read` call is a network side effect outside the state. -/
def convStep (seed_only : Bool) (st : ChannelState) (conv : Conversation) :
    ChannelState × List InboundMessage :=
  match conv.last_status with
  | none => (st, [])
  | some last =>
    match last.account with
    | none => (st, [])
    | some account =>
      let author_id := account.id
      if author_id = st.me_id then (st, [])
      else
        let acct := account.acct.getD author_id
        let conv_id := conv.id
        if conv_id = "" then (st, [])
        else if seed_only then
          let sid := last.id
          if sid = "" then (st, [])
          else ({ st with seen_status_ids := insert sid st.seen_status_ids,
                          reply_to_id := mapSet st.reply_to_id conv_id sid }, [])
        else
          let p := _process_incoming_dm st last conv_id author_id acct
          (p.1, p.2.toList)

/-- One iteration of the home-timeline loop (lines 216–237): skip unless the
lowercased visibility is `"direct"`; skip a missing account or a self-authored
status; the conversation key is `"dm:" + author_id`; then seed or process as
in the conversations loop. -/
def homeStep (seed_only : Bool) (st : ChannelState) (status : Status) :
    ChannelState × List InboundMessage :=
  if lowerStr status.visibility ≠ "direct" then (st, [])
  else
    match status.account with
    | none => (st, [])
    | some account =>
      let author_id := account.id
      if author_id = st.me_id then (st, [])
      else
        let acct := account.acct.getD author_id
        let chat_id := "dm:" ++ author_id
        if seed_only then
          let sid := status.id
          if sid = "" then (st, [])
          else ({ st with seen_status_ids := insert sid st.seen_status_ids,
                          reply_to_id := mapSet st.reply_to_id chat_id sid }, [])
        else
          let p := _process_incoming_dm st status chat_id author_id acct
          (p.1, p.2.toList)

/-- One iteration of the notifications loop (lines 246–272): skip unless the
type is `"mention"` and a status is attached; the attached status then goes
through exactly the home-timeline logic. -/
def notifStep (seed_only : Bool) (st : ChannelState) (n : Notification) :
    ChannelState × List InboundMessage :=
  if n.type ≠ "mention" then (st, [])
  else
    match n.status with
    | none => (st, [])
    | some status => homeStep seed_only st status

/-- The conversations loop over the fetched page, threading the state and
concatenating dispatched messages in source order. -/
def pollConvs (seed_only : Bool) : ChannelState → List Conversation →
    ChannelState × List InboundMessage
  | st, [] => (st, [])
  | st, c :: rest =>
    let p := convStep seed_only st c
    let q := pollConvs seed_only p.1 rest
    (q.1, p.2 ++ q.2)

/-- The home-timeline loop over the fetched page. -/
def pollHome (seed_only : Bool) : ChannelState → List Status →
    ChannelState × List InboundMessage
  | st, [] => (st, [])
  | st, s :: rest =>
    let p := homeStep seed_only st s
    let q := pollHome seed_only p.1 rest
    (q.1, p.2 ++ q.2)

/-- The notifications loop over the fetched page. -/
def pollNotifs (seed_only : Bool) : ChannelState → List Notification →
    ChannelState × List InboundMessage
  | st, [] => (st, [])
  | st, n :: rest =>
    let p := notifStep seed_only st n
    let q := pollNotifs seed_only p.1 rest
    (q.1, p.2 ++ q.2)

/-- What one tick fetches from the three sources (a failed fetch contributes
`[]`, exactly as the code's per-source `except` branches do). -/
structure TickInput where
  convs : List Conversation
  statuses : List Status
  notifs : List Notification
deriving DecidableEq

/-- `_poll_once` (lines 163–274): the three source loops in their fixed
order, state threaded through; the returned counters are observability only
and are not modelled. -/
def _poll_once (st : ChannelState) (inp : TickInput) (seed_only : Bool) :
    ChannelState × List InboundMessage :=
  let p := pollConvs seed_only st inp.convs
  let q := pollHome seed_only p.1 inp.statuses
  let r := pollNotifs seed_only q.1 inp.notifs
  (r.1, p.2 ++ q.2 ++ r.2)

/-- One iteration of `_poll_loop`'s body (lines 145–156): run `_poll_once`
with `seed_only = not _first_poll_done`, then set `_first_poll_done = True`
after a seed tick. -/
def poll_tick (st : ChannelState) (inp : TickInput) :
    ChannelState × List InboundMessage :=
  let seed_only := !st.first_poll_done
  let p := _poll_once st inp seed_only
  (if seed_only then { p.1 with first_poll_done := true } else p.1, p.2)

/-- A run of consecutive poll ticks. -/
def run_ticks : ChannelState → List TickInput → ChannelState × List InboundMessage
  | st, [] => (st, [])
  | st, inp :: rest =>
    let p := poll_tick st inp
    let q := run_ticks p.1 rest
    (q.1, p.2 ++ q.2)

/-- The candidate a conversation entry contributes, as the seed branch of the
conversations loop records it: `(conversation id, last status id)`, `none`
when any of the loop's skip conditions fires (no last status, no account,
self-authored, empty conversation id, empty status id). -/
def convCandidate (me : String) (conv : Conversation) : Option (String × String) :=
  match conv.last_status with
  | none => none
  | some last =>
    match last.account with
    | none => none
    | some account =>
      if account.id = me then none
      else if conv.id = "" then none
      else if last.id = "" then none
      else some (conv.id, last.id)

/-- The candidate a home-timeline status contributes:
`("dm:" + author id, status id)`, `none` when skipped (visibility not
`"direct"` after lowercasing, no account, self-authored, empty status id). -/
def homeCandidate (me : String) (status : Status) : Option (String × String) :=
  if lowerStr status.visibility ≠ "direct" then none
  else
    match status.account with
    | none => none
    | some account =>
      if account.id = me then none
      else if status.id = "" then none
      else some ("dm:" ++ account.id, status.id)

/-- The candidate a notification contributes: its status goes through the
home-timeline rules once the type is `"mention"`. -/
def notifCandidate (me : String) (n : Notification) : Option (String × String) :=
  if n.type ≠ "mention" then none
  else
    match n.status with
    | none => none
    | some status => homeCandidate me status

/-- The `(conversation key, message id)` candidates one tick's fetched data
yields, in the order the three loops visit them. -/
def candidatesOf (me : String) (inp : TickInput) : List (String × String) :=
  inp.convs.filterMap (convCandidate me) ++
    inp.statuses.filterMap (homeCandidate me) ++
    inp.notifs.filterMap (notifCandidate me)

/-- Record one optional candidate into the seen set and the reply map, as the
seed branches do. -/
def seedStep (st : ChannelState) : Option (String × String) → ChannelState
  | none => st
  | some (k, i) =>
    { st with seen_status_ids := insert i st.seen_status_ids,
              reply_to_id := mapSet st.reply_to_id k i }

/-- Record a list of candidates in order. -/
def seedFold (st : ChannelState) : List (String × String) → ChannelState
  | [] => st
  | c :: rest => seedFold (seedStep st (some c)) rest

/-- An outbound message from the bus (`OutboundMessage`): `metadata or {}` is
modelled by an association list, `[]` when absent. -/
structure OutboundMessage where
  chat_id : String
  content : String
  metadata : List (String × String)
deriving DecidableEq

/-- The reply-target resolution of `send` (line 125):
`self._reply_to_id.get(msg.chat_id) or (msg.metadata or {}).get("in_reply_to_id")`,
followed by the `if not in_reply_to_id:` falsiness test — a missing or empty
map value falls through to the metadata, and an empty final value counts as
no target. -/
def send_resolve (st : ChannelState) (chat_id : String)
    (metadata : List (String × String)) : Option String :=
  let v :=
    match mapGet st.reply_to_id chat_id with
    | some s => if s = "" then mapGet metadata "in_reply_to_id" else some s
    | none => mapGet metadata "in_reply_to_id"
  match v with
  | some s => if s = "" then none else some s
  | none => none

/-- The write call `send` makes: `status_post(content, in_reply_to_id=…,
visibility="direct")`. -/
structure PostCall where
  content : String
  in_reply_to_id : String
  visibility : String
deriving DecidableEq

/-- What one `send` invocation does (lines 119–138): each constructor is one
early-return branch — `noClient` for the missing-client warning, `noTarget`
for the "no reply target … skipping send" warning, `posted` for the one
network write attempted. -/
inductive SendResult where
  | noClient
  | noTarget
  | posted (p : PostCall)
deriving DecidableEq

/-- `send` (lines 119–138) for a channel whose client handle is present iff
`has_client`. -/
def send (has_client : Bool) (st : ChannelState) (msg : OutboundMessage) :
    SendResult :=
  if has_client = false then .noClient
  else
    match send_resolve st msg.chat_id msg.metadata with
    | none => .noTarget
    | some rid => .posted ⟨msg.content, rid, "direct"⟩

/-- What the connection attempt of `start` (client creation plus the `me()`
identity call) produces: `ok me_id` when both calls return, with
`me_id = str(_get(me, "id", ""))` (so `""` models a response lacking an id);
`failure` when either call raises. -/
inductive ConnectResult where
  | ok (me_id : String)
  | failure
deriving DecidableEq

/-- The connection attempt returned a response lacking an id. -/
def connLacksId : ConnectResult → Bool
  | .ok mid => mid = ""
  | .failure => false

/-- The observable outcome of `start`: the final `_running` flag, whether
`_running` was ever set `True` during the call, and whether the poll loop
task was spawned. -/
structure StartOutcome where
  running : Bool
  ever_running : Bool
  polling : Bool
deriving DecidableEq

/-- `start` (lines 78–99): an empty token logs and returns before `_running`
is touched; then `_running = True`; a connection failure or a missing id in
the `me()` response sets `_running = False` and returns before
`create_task(self._poll_loop())`; otherwise the poll loop is spawned with
`_running` still `True`. -/
def start (token : String) (conn : ConnectResult) : StartOutcome :=
  if token = "" then ⟨false, false, false⟩
  else
    match conn with
    | .failure => ⟨false, true, false⟩
    | .ok me_id => if me_id = "" then ⟨false, true, false⟩ else ⟨true, true, true⟩

def stW10 : ChannelState := ⟨"1", [("c1", "s1")], {"s1"}, true⟩

def statusW10 : Status := ⟨"s1", "direct", "<p>hi</p>", some ⟨"2", some "bob"⟩⟩

def stW2 : ChannelState := ⟨"1", [], {"s0"}, true⟩

def statusW2 : Status := ⟨"s1", "direct", "hello", some ⟨"2", some "bob"⟩⟩

def stW1 : ChannelState := ⟨"1", [], ∅, false⟩

def inpW1 : TickInput :=
  ⟨[⟨"c1", some ⟨"s1", "direct", "<p>hi</p>", some ⟨"2", some "bob"⟩⟩⟩],
   [⟨"s3", "direct", "yo", some ⟨"3", some "carol"⟩⟩],
   [⟨"mention", some ⟨"s4", "direct", "hey", some ⟨"4", none⟩⟩⟩]⟩

def stC5 : ChannelState := ⟨"1", [], ∅, true⟩

def statusC5 : Status := ⟨"s9", "DIRECT", "hi", some ⟨"2", some "bob"⟩⟩

/-- Whether a status is authored by the bootstrapped own account. -/
def statusSelfAuthored (me : String) (s : Status) : Bool :=
  match s.account with
  | some a => a.id = me
  | none => false

/-- Whether a conversation's last status is authored by the own account. -/
def convSelfAuthored (me : String) (c : Conversation) : Bool :=
  match c.last_status with
  | some s => statusSelfAuthored me s
  | none => false

/-- Whether a notification's attached status is authored by the own account. -/
def notifSelfAuthored (me : String) (n : Notification) : Bool :=
  match n.status with
  | some s => statusSelfAuthored me s
  | none => false

def stW6 : ChannelState := ⟨"1", [("c1", "s1")], {"s1"}, true⟩

def convW6 : Conversation := ⟨"c1", some ⟨"s5", "direct", "x", some ⟨"1", some "me"⟩⟩⟩

def statusW6 : Status := ⟨"s6", "direct", "y", some ⟨"1", some "me"⟩⟩

def notifW6 : Notification := ⟨"mention", some ⟨"s7", "direct", "z", some ⟨"1", some "me"⟩⟩⟩

/-- Python falsiness on an optional string: an empty value counts as absent
(`x or y` and `if not x`). -/
def optNorm : Option String → Option String
  | some s => if s = "" then none else some s
  | none => none

def stW7 : ChannelState := ⟨"1", [], ∅, true⟩

def statusW7 : Status := ⟨"s1", "direct", "<p>hi</p>", some ⟨"2", some "bob"⟩⟩

def statusW7b : Status := ⟨"s2", "direct", "yo", some ⟨"3", some "carol"⟩⟩

theorem mapGet_mapSet_self (m : List (String × String)) (k v : String) :
    mapGet (mapSet m k v) k = some v := by
  induction m with
  | nil => simp [mapSet, mapGet]
  | cons p rest ih =>
    by_cases hk : p.1 = k
    · simp [mapSet, mapGet, hk]
    · simp [mapSet, mapGet, hk, ih]

theorem mapGet_mapSet_ne (m : List (String × String)) (k v k' : String)
    (h : k' ≠ k) : mapGet (mapSet m k v) k' = mapGet m k' := by
  induction m with
  | nil => simp [mapSet, mapGet, Ne.symm h]
  | cons p rest ih =>
    by_cases hk : p.1 = k
    · simp [mapSet, mapGet, hk, h, Ne.symm h]
    · by_cases hk' : p.1 = k'
      · simp [mapSet, mapGet, hk, hk', h]
      · simp [mapSet, mapGet, hk, hk', ih]

theorem process_drop (st : ChannelState) (status : Status) (chat author acct : String)
    (h : status.id = "" ∨ status.id ∈ st.seen_status_ids) :
    _process_incoming_dm st status chat author acct = (st, none) := by
  unfold _process_incoming_dm
  rw [if_pos h]

theorem process_not_drop (st : ChannelState) (status : Status) (chat author acct : String)
    (h : ¬ (status.id = "" ∨ status.id ∈ st.seen_status_ids)) :
    _process_incoming_dm st status chat author acct =
      ({ st with
          seen_status_ids :=
            if 500 < (insert status.id st.seen_status_ids).card then (∅ : Finset String)
            else insert status.id st.seen_status_ids,
          reply_to_id := mapSet st.reply_to_id chat status.id },
       some ⟨author ++ "|" ++ acct, chat,
         (if pyStrip (_strip_html status.content) = "" then "[empty]"
          else pyStrip (_strip_html status.content)),
         chat, status.id, acct, status.id⟩) := by
  unfold _process_incoming_dm
  rw [if_neg h]

/-- C10: when the dedup step drops a candidate (empty or already-seen
message id), the whole channel state is unchanged — seen set, reply-target
entry for the candidate's conversation key, and the `first_poll_done` flag
keep their prior values — and no inbound message is handed to the bus. -/
theorem C10_dropped_candidate_frame (st : ChannelState) (status : Status)
    (chat author acct : String)
    (h : status.id = "" ∨ status.id ∈ st.seen_status_ids) :
    (_process_incoming_dm st status chat author acct).1 = st ∧
    (_process_incoming_dm st status chat author acct).2 = none ∧
    (_process_incoming_dm st status chat author acct).1.seen_status_ids
      = st.seen_status_ids ∧
    mapGet (_process_incoming_dm st status chat author acct).1.reply_to_id chat
      = mapGet st.reply_to_id chat ∧
    (_process_incoming_dm st status chat author acct).1.first_poll_done
      = st.first_poll_done := by
  rw [process_drop st status chat author acct h]
  exact ⟨rfl, rfl, rfl, rfl, rfl⟩

theorem C10_witness :
    (_process_incoming_dm stW10 statusW10 "c1" "2" "bob").1 = stW10 ∧
    (_process_incoming_dm stW10 statusW10 "c1" "2" "bob").2 = none := by
  have h := C10_dropped_candidate_frame stW10 statusW10 "c1" "2" "bob"
    (Or.inr (by decide))
  exact ⟨h.1, h.2.1⟩

/-- C2: a candidate whose message id is empty or already in the seen set is
dropped silently as a no-op, and within one un-cleared seen-set window
(here: the set held fewer than 500 ids, so the insertion cannot trigger the
clear) processing the same candidate twice dispatches at most once — the
second call returns without dispatching. -/
theorem C2_dedup_idempotent (st : ChannelState) (status : Status)
    (chat author acct : String)
    (h : st.seen_status_ids.card < 500) :
    ((status.id = "" ∨ status.id ∈ st.seen_status_ids) →
      _process_incoming_dm st status chat author acct = (st, none)) ∧
    (_process_incoming_dm (_process_incoming_dm st status chat author acct).1
      status chat author acct).2 = none := by
  constructor
  · exact process_drop st status chat author acct
  · by_cases hd : status.id = "" ∨ status.id ∈ st.seen_status_ids
    · rw [process_drop st status chat author acct hd]
      rw [process_drop st status chat author acct hd]
    · rw [process_not_drop st status chat author acct hd]
      have hcard : ¬ 500 < (insert status.id st.seen_status_ids).card := by
        have := Finset.card_insert_le status.id st.seen_status_ids
        omega
      rw [process_drop]
      right
      simp [hcard]

theorem C2_witness :
    (_process_incoming_dm
      (_process_incoming_dm stW2 statusW2 "c1" "2" "bob").1
      statusW2 "c1" "2" "bob").2 = none :=
  (C2_dedup_idempotent stW2 statusW2 "c1" "2" "bob" (by decide)).2

/-- C3: `_process_incoming_dm` adds the message id to the seen set first and
clears the whole set only afterwards, when its cardinality exceeds 500; hence
from any state within the bound, every completed call leaves the seen set
with at most 500 elements — and when the set held exactly 500 ids and the id
was fresh, the clear removes the just-inserted id itself (the set comes back
empty). -/
theorem C3_seen_set_bound (st : ChannelState) (status : Status)
    (chat author acct : String)
    (h : st.seen_status_ids.card ≤ 500) :
    (_process_incoming_dm st status chat author acct).1.seen_status_ids.card ≤ 500 ∧
    (st.seen_status_ids.card = 500 → status.id ∉ st.seen_status_ids →
      status.id ≠ "" →
      (_process_incoming_dm st status chat author acct).1.seen_status_ids = ∅) := by
  by_cases hd : status.id = "" ∨ status.id ∈ st.seen_status_ids
  · rw [process_drop st status chat author acct hd]
    constructor
    · exact h
    · intro _ hnot hne
      rcases hd with hd | hd
      · exact absurd hd hne
      · exact absurd hd hnot
  · rw [process_not_drop st status chat author acct hd]
    by_cases hc : 500 < (insert status.id st.seen_status_ids).card
    · constructor
      · simp [hc]
      · intro _ _ _
        simp [hc]
    · constructor
      · simp [hc]
        omega
      · intro h500 hnot _
        exfalso
        rw [Finset.card_insert_of_not_mem hnot, h500] at hc
        omega

theorem C3_witness :
    (_process_incoming_dm stW2 statusW2 "c1" "2" "bob").1.seen_status_ids.card
      ≤ 500 :=
  (C3_seen_set_bound stW2 statusW2 "c1" "2" "bob" (by decide)).1

/-- C8: an outbound message whose chat id has no reply-target entry and
whose metadata has no `in_reply_to_id` fallback ends in the warn-and-return
branch: `send` performs zero network write calls (the `status_post` operation
is never invoked). -/
theorem C8_no_target_drop (st : ChannelState) (msg : OutboundMessage)
    (h1 : mapGet st.reply_to_id msg.chat_id = none)
    (h2 : mapGet msg.metadata "in_reply_to_id" = none) :
    send true st msg = SendResult.noTarget := by
  unfold send send_resolve
  simp [h1, h2]

theorem C8_witness :
    send true (⟨"1", [("c1", "s1")], {"s1"}, true⟩ : ChannelState)
      (⟨"c2", "hello", [("acct", "bob")]⟩ : OutboundMessage)
      = SendResult.noTarget :=
  C8_no_target_drop _ _ (by decide) (by decide)

/-- C9: with an empty token, `start` refuses to run without ever entering
the running state or spawning the poll loop; on a connection failure, and
likewise when the identity call returns a response lacking an id, the running
flag ends false and `start` returns without spawning the poll loop. -/
theorem C9_start_failures (token : String) (conn : ConnectResult) :
    (token = "" → start token conn = ⟨false, false, false⟩) ∧
    (token ≠ "" → conn = ConnectResult.failure →
      start token conn = ⟨false, true, false⟩) ∧
    (token ≠ "" → connLacksId conn = true →
      start token conn = ⟨false, true, false⟩) := by
  refine ⟨fun h => by simp [start, h], fun h hf => by simp [start, h, hf], ?_⟩
  intro h hl
  cases conn with
  | failure => simp [start, h]
  | ok mid =>
    simp [connLacksId] at hl
    simp [start, h, hl]

/-- C4, counterexample: sanitizing `"<p>Hello&nbsp;World</p>"` does not
yield the string `"Hello World"` with an ASCII space, because `&nbsp;`
decodes to U+00A0. -/
theorem C4_counterexample :
    _strip_html "<p>Hello&nbsp;World</p>" ≠ "Hello World" := by decide

/-- C4, amended: sanitizing `"<p>Hello&nbsp;World</p>"` strips the tags and
decodes the entity, yielding `"Hello World"` whose separator is U+00A0, the
non-breaking space (`\u00A0`), not the ASCII space. -/
theorem C4_sanitize_nbsp :
    _strip_html "<p>Hello&nbsp;World</p>" = "Hello\u00A0World" := by decide

theorem seedStep_me_id (st : ChannelState) (oc : Option (String × String)) :
    (seedStep st oc).me_id = st.me_id := by
  cases oc with
  | none => rfl
  | some c => rfl

theorem seedStep_first (st : ChannelState) (oc : Option (String × String)) :
    (seedStep st oc).first_poll_done = st.first_poll_done := by
  cases oc with
  | none => rfl
  | some c => rfl

theorem convStep_seed (st : ChannelState) (c : Conversation) :
    convStep true st c = (seedStep st (convCandidate st.me_id c), []) := by
  obtain ⟨cid, ls⟩ := c
  cases ls with
  | none => rfl
  | some last =>
    obtain ⟨lid, vis, cont, accOpt⟩ := last
    cases accOpt with
    | none => rfl
    | some account =>
      by_cases h1 : account.id = st.me_id
      · simp [convStep, convCandidate, seedStep, h1]
      · by_cases h2 : cid = ""
        · simp [convStep, convCandidate, seedStep, h1, h2]
        · by_cases h3 : lid = ""
          · simp [convStep, convCandidate, seedStep, h1, h2, h3]
          · simp [convStep, convCandidate, seedStep, h1, h2, h3]

theorem homeStep_seed (st : ChannelState) (s : Status) :
    homeStep true st s = (seedStep st (homeCandidate st.me_id s), []) := by
  obtain ⟨sid, vis, cont, accOpt⟩ := s
  by_cases hv : lowerStr vis = "direct"
  · cases accOpt with
    | none => simp [homeStep, homeCandidate, seedStep, hv]
    | some account =>
      by_cases h1 : account.id = st.me_id
      · simp [homeStep, homeCandidate, seedStep, hv, h1]
      · by_cases h3 : sid = ""
        · simp [homeStep, homeCandidate, seedStep, hv, h1, h3]
        · simp [homeStep, homeCandidate, seedStep, hv, h1, h3]
  · simp [homeStep, homeCandidate, seedStep, hv]

theorem notifStep_seed (st : ChannelState) (n : Notification) :
    notifStep true st n = (seedStep st (notifCandidate st.me_id n), []) := by
  obtain ⟨ty, stOpt⟩ := n
  by_cases ht : ty = "mention"
  · cases stOpt with
    | none => simp [notifStep, notifCandidate, seedStep, ht]
    | some s => simp [notifStep, notifCandidate, ht, homeStep_seed]
  · simp [notifStep, notifCandidate, seedStep, ht]

theorem seedFold_me_id (cs : List (String × String)) :
    ∀ st : ChannelState, (seedFold st cs).me_id = st.me_id := by
  induction cs with
  | nil => intro st; rfl
  | cons c rest ih =>
    intro st
    rw [seedFold, ih, seedStep_me_id]

theorem seedFold_first (cs : List (String × String)) :
    ∀ st : ChannelState, (seedFold st cs).first_poll_done = st.first_poll_done := by
  induction cs with
  | nil => intro st; rfl
  | cons c rest ih =>
    intro st
    rw [seedFold, ih, seedStep_first]

theorem seedFold_append (a b : List (String × String)) :
    ∀ st : ChannelState, seedFold st (a ++ b) = seedFold (seedFold st a) b := by
  induction a with
  | nil => intro st; rfl
  | cons c rest ih =>
    intro st
    rw [List.cons_append, seedFold, seedFold, ih]

theorem seedFold_filterMap_cons {α : Type} (f : α → Option (String × String))
    (x : α) (l : List α) (st : ChannelState) :
    seedFold st ((x :: l).filterMap f) =
      seedFold (seedStep st (f x)) (l.filterMap f) := by
  cases hf : f x with
  | none => rw [List.filterMap_cons_none hf]; rfl
  | some c => rw [List.filterMap_cons_some hf]; rfl

theorem pollConvs_seed (l : List Conversation) :
    ∀ st : ChannelState,
      pollConvs true st l = (seedFold st (l.filterMap (convCandidate st.me_id)), []) := by
  induction l with
  | nil => intro st; rfl
  | cons c rest ih =>
    intro st
    rw [pollConvs, convStep_seed, ih, seedStep_me_id,
      seedFold_filterMap_cons (convCandidate st.me_id) c rest st]
    rfl

theorem pollHome_seed (l : List Status) :
    ∀ st : ChannelState,
      pollHome true st l = (seedFold st (l.filterMap (homeCandidate st.me_id)), []) := by
  induction l with
  | nil => intro st; rfl
  | cons s rest ih =>
    intro st
    rw [pollHome, homeStep_seed, ih, seedStep_me_id,
      seedFold_filterMap_cons (homeCandidate st.me_id) s rest st]
    rfl

theorem pollNotifs_seed (l : List Notification) :
    ∀ st : ChannelState,
      pollNotifs true st l = (seedFold st (l.filterMap (notifCandidate st.me_id)), []) := by
  induction l with
  | nil => intro st; rfl
  | cons n rest ih =>
    intro st
    rw [pollNotifs, notifStep_seed, ih, seedStep_me_id,
      seedFold_filterMap_cons (notifCandidate st.me_id) n rest st]
    rfl

theorem poll_once_seed (st : ChannelState) (inp : TickInput) :
    _poll_once st inp true = (seedFold st (candidatesOf st.me_id inp), []) := by
  unfold _poll_once candidatesOf
  rw [pollConvs_seed]
  dsimp only
  rw [pollHome_seed, seedFold_me_id]
  dsimp only
  rw [pollNotifs_seed, seedFold_me_id, seedFold_me_id, seedFold_append,
    seedFold_append]
  simp

theorem process_first (st : ChannelState) (status : Status)
    (chat author acct : String) :
    (_process_incoming_dm st status chat author acct).1.first_poll_done
      = st.first_poll_done := by
  by_cases hd : status.id = "" ∨ status.id ∈ st.seen_status_ids
  · rw [process_drop st status chat author acct hd]
  · rw [process_not_drop st status chat author acct hd]

theorem convStep_first (seed_only : Bool) (st : ChannelState) (c : Conversation) :
    (convStep seed_only st c).1.first_poll_done = st.first_poll_done := by
  obtain ⟨cid, ls⟩ := c
  cases ls with
  | none => rfl
  | some last =>
    obtain ⟨lid, vis, cont, accOpt⟩ := last
    cases accOpt with
    | none => rfl
    | some account =>
      by_cases h1 : account.id = st.me_id
      · simp [convStep, h1]
      · by_cases h2 : cid = ""
        · simp [convStep, h1, h2]
        · cases seed_only with
          | true =>
            by_cases h3 : lid = ""
            · simp [convStep, h1, h2, h3]
            · simp [convStep, h1, h2, h3]
          | false => simp [convStep, h1, h2, process_first]

theorem homeStep_first (seed_only : Bool) (st : ChannelState) (s : Status) :
    (homeStep seed_only st s).1.first_poll_done = st.first_poll_done := by
  obtain ⟨sid, vis, cont, accOpt⟩ := s
  by_cases hv : lowerStr vis = "direct"
  · cases accOpt with
    | none => simp [homeStep, hv]
    | some account =>
      by_cases h1 : account.id = st.me_id
      · simp [homeStep, hv, h1]
      · cases seed_only with
        | true =>
          by_cases h3 : sid = ""
          · simp [homeStep, hv, h1, h3]
          · simp [homeStep, hv, h1, h3]
        | false => simp [homeStep, hv, h1, process_first]
  · simp [homeStep, hv]

theorem notifStep_first (seed_only : Bool) (st : ChannelState) (n : Notification) :
    (notifStep seed_only st n).1.first_poll_done = st.first_poll_done := by
  obtain ⟨ty, stOpt⟩ := n
  by_cases ht : ty = "mention"
  · cases stOpt with
    | none => simp [notifStep, ht]
    | some s => simp [notifStep, ht, homeStep_first]
  · simp [notifStep, ht]

theorem pollConvs_first (seed_only : Bool) (l : List Conversation) :
    ∀ st : ChannelState,
      (pollConvs seed_only st l).1.first_poll_done = st.first_poll_done := by
  induction l with
  | nil => intro st; rfl
  | cons c rest ih =>
    intro st
    rw [pollConvs]
    dsimp only
    rw [ih, convStep_first]

theorem pollHome_first (seed_only : Bool) (l : List Status) :
    ∀ st : ChannelState,
      (pollHome seed_only st l).1.first_poll_done = st.first_poll_done := by
  induction l with
  | nil => intro st; rfl
  | cons s rest ih =>
    intro st
    rw [pollHome]
    dsimp only
    rw [ih, homeStep_first]

theorem pollNotifs_first (seed_only : Bool) (l : List Notification) :
    ∀ st : ChannelState,
      (pollNotifs seed_only st l).1.first_poll_done = st.first_poll_done := by
  induction l with
  | nil => intro st; rfl
  | cons n rest ih =>
    intro st
    rw [pollNotifs]
    dsimp only
    rw [ih, notifStep_first]

theorem poll_once_first (st : ChannelState) (inp : TickInput) (seed_only : Bool) :
    (_poll_once st inp seed_only).1.first_poll_done = st.first_poll_done := by
  unfold _poll_once
  dsimp only
  rw [pollNotifs_first, pollHome_first, pollConvs_first]

theorem poll_tick_first_true (st : ChannelState) (inp : TickInput)
    (h : st.first_poll_done = true) :
    (poll_tick st inp).1.first_poll_done = true := by
  unfold poll_tick
  rw [h]
  simp [poll_once_first, h]

theorem run_ticks_first_true (inps : List TickInput) :
    ∀ st : ChannelState, st.first_poll_done = true →
      (run_ticks st inps).1.first_poll_done = true := by
  induction inps with
  | nil => intro st h; exact h
  | cons inp rest ih =>
    intro st h
    rw [run_ticks]
    dsimp only
    exact ih _ (poll_tick_first_true st inp h)

theorem seedStep_seen_subset (st : ChannelState) (oc : Option (String × String)) :
    st.seen_status_ids ⊆ (seedStep st oc).seen_status_ids := by
  cases oc with
  | none => exact Finset.Subset.refl _
  | some c =>
    obtain ⟨k, i⟩ := c
    exact Finset.subset_insert _ _

theorem seedStep_reply_isSome (st : ChannelState) (oc : Option (String × String))
    (k : String) (h : (mapGet st.reply_to_id k).isSome = true) :
    (mapGet (seedStep st oc).reply_to_id k).isSome = true := by
  cases oc with
  | none => exact h
  | some c =>
    obtain ⟨k', i⟩ := c
    by_cases hk : k = k'
    · subst hk
      simp [seedStep, mapGet_mapSet_self]
    · simp [seedStep, mapGet_mapSet_ne _ _ _ _ hk, h]

theorem seedFold_seen_subset (cs : List (String × String)) :
    ∀ st : ChannelState, st.seen_status_ids ⊆ (seedFold st cs).seen_status_ids := by
  induction cs with
  | nil => intro st; exact Finset.Subset.refl _
  | cons c rest ih =>
    intro st
    rw [seedFold]
    exact (seedStep_seen_subset st (some c)).trans (ih _)

theorem seedFold_reply_isSome (cs : List (String × String)) (k : String) :
    ∀ st : ChannelState, (mapGet st.reply_to_id k).isSome = true →
      (mapGet (seedFold st cs).reply_to_id k).isSome = true := by
  induction cs with
  | nil => intro st h; exact h
  | cons c rest ih =>
    intro st h
    rw [seedFold]
    exact ih _ (seedStep_reply_isSome st (some c) k h)

theorem seedFold_mem (cs : List (String × String)) :
    ∀ st : ChannelState, ∀ c ∈ cs,
      c.2 ∈ (seedFold st cs).seen_status_ids ∧
      (mapGet (seedFold st cs).reply_to_id c.1).isSome = true := by
  induction cs with
  | nil => intro st c hc; exact absurd hc (List.not_mem_nil c)
  | cons c' rest ih =>
    intro st c hc
    rw [seedFold]
    rcases List.mem_cons.1 hc with hc | hc
    · subst hc
      obtain ⟨k, i⟩ := c
      constructor
      · exact seedFold_seen_subset rest _ (by simp [seedStep])
      · exact seedFold_reply_isSome rest k _ (by simp [seedStep, mapGet_mapSet_self])
    · exact ih _ c hc

/-- C1: on the first poll tick (`first_poll_done = false`) the adapter
dispatches zero inbound messages; the tick's entire effect is to record every
candidate from the three sources — its message id into the seen set and its
conversation-key entry into the reply-target map — and to set
`first_poll_done := true`; every later run of ticks keeps the flag true for
the life of the session. -/
theorem C1_first_tick_seeds (st : ChannelState) (inp : TickInput)
    (inps : List TickInput) (h : st.first_poll_done = false) :
    poll_tick st inp =
      ({ seedFold st (candidatesOf st.me_id inp) with first_poll_done := true }, []) ∧
    (candidatesOf st.me_id inp).all (fun c =>
      decide (c.2 ∈ (poll_tick st inp).1.seen_status_ids) &&
      (mapGet (poll_tick st inp).1.reply_to_id c.1).isSome) = true ∧
    (poll_tick st inp).1.first_poll_done = true ∧
    (run_ticks (poll_tick st inp).1 inps).1.first_poll_done = true := by
  have hmain : poll_tick st inp =
      ({ seedFold st (candidatesOf st.me_id inp) with first_poll_done := true }, []) := by
    unfold poll_tick
    rw [h]
    simp [poll_once_seed]
  refine ⟨hmain, ?_, ?_, ?_⟩
  · rw [hmain, List.all_eq_true]
    intro c hc
    have hm := seedFold_mem (candidatesOf st.me_id inp) st c hc
    simp [hm.1, hm.2]
  · rw [hmain]
  · rw [hmain]
    exact run_ticks_first_true inps _ rfl

theorem C1_witness :
    (poll_tick stW1 inpW1).2 = [] ∧
    (poll_tick stW1 inpW1).1.first_poll_done = true ∧
    (run_ticks (poll_tick stW1 inpW1).1 [inpW1]).1.first_poll_done = true := by
  have h := C1_first_tick_seeds stW1 inpW1 [inpW1] rfl
  exact ⟨by rw [h.1], h.2.2.1, h.2.2.2⟩

theorem process_snd_meta (st : ChannelState) (status : Status)
    (chat author acct : String) (m : InboundMessage)
    (h : (_process_incoming_dm st status chat author acct).2 = some m) :
    m.meta_status_id = status.id := by
  by_cases hd : status.id = "" ∨ status.id ∈ st.seen_status_ids
  · rw [process_drop st status chat author acct hd] at h
    exact absurd h (by simp)
  · rw [process_not_drop st status chat author acct hd] at h
    simp at h
    rw [← h]

theorem homeStep_dispatch_src (st : ChannelState) (s : Status) (m : InboundMessage)
    (h : m ∈ (homeStep false st s).2) :
    lowerStr s.visibility = "direct" ∧ m.meta_status_id = s.id := by
  obtain ⟨sid, vis, cont, accOpt⟩ := s
  by_cases hv : lowerStr vis = "direct"
  · cases accOpt with
    | none => simp [homeStep, hv] at h
    | some account =>
      by_cases h1 : account.id = st.me_id
      · simp [homeStep, hv, h1] at h
      · simp only [homeStep, hv, h1] at h
        simp [hv, h1] at h
        refine ⟨hv, ?_⟩
        have := process_snd_meta st ⟨sid, vis, cont, some account⟩
          ("dm:" ++ account.id) account.id (account.acct.getD account.id) m ?_
        · exact this
        · exact h
  · simp [homeStep, hv] at h

theorem notifStep_dispatch_src (st : ChannelState) (n : Notification)
    (m : InboundMessage) (h : m ∈ (notifStep false st n).2) :
    n.type = "mention" ∧ ∃ s, n.status = some s ∧
      lowerStr s.visibility = "direct" ∧ m.meta_status_id = s.id := by
  obtain ⟨ty, stOpt⟩ := n
  by_cases ht : ty = "mention"
  · cases stOpt with
    | none => simp [notifStep, ht] at h
    | some s =>
      simp only [notifStep, ht] at h
      simp at h
      have hs := homeStep_dispatch_src st s m (by simpa using h)
      exact ⟨ht, s, rfl, hs.1, hs.2⟩
  · simp [notifStep, ht] at h

theorem pollHome_dispatch_src (l : List Status) :
    ∀ st : ChannelState, ∀ m ∈ (pollHome false st l).2,
      ∃ s ∈ l, lowerStr s.visibility = "direct" ∧ m.meta_status_id = s.id := by
  induction l with
  | nil => intro st m hm; exact absurd hm (by simp [pollHome])
  | cons s rest ih =>
    intro st m hm
    rw [pollHome] at hm
    dsimp only at hm
    rcases List.mem_append.1 hm with hm | hm
    · have hs := homeStep_dispatch_src st s m hm
      exact ⟨s, List.mem_cons_self s rest, hs⟩
    · obtain ⟨s', hs', hp⟩ := ih _ m hm
      exact ⟨s', List.mem_cons_of_mem s hs', hp⟩

theorem pollNotifs_dispatch_src (l : List Notification) :
    ∀ st : ChannelState, ∀ m ∈ (pollNotifs false st l).2,
      ∃ n ∈ l, n.type = "mention" ∧ ∃ s, n.status = some s ∧
        lowerStr s.visibility = "direct" ∧ m.meta_status_id = s.id := by
  induction l with
  | nil => intro st m hm; exact absurd hm (by simp [pollNotifs])
  | cons n rest ih =>
    intro st m hm
    rw [pollNotifs] at hm
    dsimp only at hm
    rcases List.mem_append.1 hm with hm | hm
    · have hs := notifStep_dispatch_src st n m hm
      exact ⟨n, List.mem_cons_self n rest, hs⟩
    · obtain ⟨n', hn', hp⟩ := ih _ m hm
      exact ⟨n', List.mem_cons_of_mem n hn', hp⟩

/-- C5, amended: every message dispatched from the home timeline comes from
an entry whose visibility, lowercased, equals `"direct"`, and every message
dispatched from the notifications comes from an entry of type `"mention"`
whose attached status has lowercased visibility `"direct"`; entries failing
these checks are never dispatched. -/
theorem C5_visibility_lowercased (st : ChannelState) (statuses : List Status)
    (notifs : List Notification) :
    (∀ m ∈ (pollHome false st statuses).2, ∃ s ∈ statuses,
      lowerStr s.visibility = "direct" ∧ m.meta_status_id = s.id) ∧
    (∀ m ∈ (pollNotifs false st notifs).2, ∃ n ∈ notifs,
      n.type = "mention" ∧ ∃ s, n.status = some s ∧
        lowerStr s.visibility = "direct" ∧ m.meta_status_id = s.id) :=
  ⟨pollHome_dispatch_src statuses st, pollNotifs_dispatch_src notifs st⟩

/-- C5, counterexample: a home-timeline status whose visibility field is
`"DIRECT"` — different from the exact string `"direct"` — is nevertheless
dispatched, because the code lowercases the field before comparing. -/
theorem C5_counterexample :
    statusC5.visibility ≠ "direct" ∧
    (_poll_once stC5 ⟨[], [statusC5], []⟩ false).2.length = 1 := by
  constructor
  · decide
  · decide

/-- C6: in each of the three sources, a candidate whose author id equals the
bootstrapped own account id is skipped entirely — in dispatch mode nothing is
dispatched and in seed mode nothing is recorded; the state is returned
unchanged. -/
theorem C6_self_filter (seed_only : Bool) (st : ChannelState) (c : Conversation)
    (s : Status) (n : Notification)
    (h1 : convSelfAuthored st.me_id c = true)
    (h2 : statusSelfAuthored st.me_id s = true)
    (h3 : notifSelfAuthored st.me_id n = true) :
    convStep seed_only st c = (st, []) ∧
    homeStep seed_only st s = (st, []) ∧
    notifStep seed_only st n = (st, []) := by
  refine ⟨?_, ?_, ?_⟩
  · obtain ⟨cid, ls⟩ := c
    cases ls with
    | none => simp [convSelfAuthored] at h1
    | some last =>
      obtain ⟨lid, vis, cont, accOpt⟩ := last
      cases accOpt with
      | none => simp [convSelfAuthored, statusSelfAuthored] at h1
      | some account =>
        simp [convSelfAuthored, statusSelfAuthored] at h1
        simp [convStep, h1]
  · obtain ⟨sid, vis, cont, accOpt⟩ := s
    cases accOpt with
    | none => simp [statusSelfAuthored] at h2
    | some account =>
      simp [statusSelfAuthored] at h2
      by_cases hv : lowerStr vis = "direct"
      · simp [homeStep, hv, h2]
      · simp [homeStep, hv]
  · obtain ⟨ty, stOpt⟩ := n
    cases stOpt with
    | none => simp [notifSelfAuthored] at h3
    | some s' =>
      simp [notifSelfAuthored] at h3
      by_cases ht : ty = "mention"
      · obtain ⟨sid, vis, cont, accOpt⟩ := s'
        cases accOpt with
        | none => simp [statusSelfAuthored] at h3
        | some account =>
          simp [statusSelfAuthored] at h3
          by_cases hv : lowerStr vis = "direct"
          · simp [notifStep, ht, homeStep, hv, h3]
          · simp [notifStep, ht, homeStep, hv]
      · simp [notifStep, ht]

theorem C6_witness :
    convStep true stW6 convW6 = (stW6, []) ∧
    homeStep true stW6 statusW6 = (stW6, []) ∧
    notifStep true stW6 notifW6 = (stW6, []) :=
  C6_self_filter true stW6 convW6 statusW6 notifW6 (by decide) (by decide) (by decide)

theorem process_dispatch_eff (st : ChannelState) (status : Status)
    (chat author acct : String)
    (h : (_process_incoming_dm st status chat author acct).2.isSome = true) :
    status.id ≠ "" ∧
    (_process_incoming_dm st status chat author acct).1.reply_to_id
      = mapSet st.reply_to_id chat status.id := by
  by_cases hd : status.id = "" ∨ status.id ∈ st.seen_status_ids
  · rw [process_drop st status chat author acct hd] at h
    simp at h
  · rw [process_not_drop st status chat author acct hd]
    push_neg at hd
    exact ⟨hd.1, rfl⟩

theorem process_reply_frame (st : ChannelState) (status : Status)
    (chat author acct k : String) (hk : k ≠ chat) :
    mapGet (_process_incoming_dm st status chat author acct).1.reply_to_id k
      = mapGet st.reply_to_id k := by
  by_cases hd : status.id = "" ∨ status.id ∈ st.seen_status_ids
  · rw [process_drop st status chat author acct hd]
  · rw [process_not_drop st status chat author acct hd]
    exact mapGet_mapSet_ne _ _ _ _ hk

/-- C7: the outbound sender resolves `in_reply_to_id` by looking up the chat
id in the reply-target map, falling back to `metadata.in_reply_to_id` when
the map has no entry (and using a non-empty map entry as is); in particular,
after a candidate with conversation key `chat` and message id `status.id`
was dispatched, a send to `chat` resolves `some status.id`, and a later
candidate dispatched under a different key leaves that resolution
unchanged. -/
theorem C7_reply_routing (st : ChannelState) (status status2 : Status)
    (chat author acct chat2 author2 acct2 v : String)
    (meta : List (String × String))
    (h1 : (_process_incoming_dm st status chat author acct).2.isSome = true)
    (h2 : chat2 ≠ chat) :
    (mapGet st.reply_to_id chat = none →
      send_resolve st chat meta = optNorm (mapGet meta "in_reply_to_id")) ∧
    (mapGet st.reply_to_id chat = some v → v ≠ "" →
      send_resolve st chat meta = some v) ∧
    send_resolve (_process_incoming_dm st status chat author acct).1 chat meta
      = some status.id ∧
    send_resolve (_process_incoming_dm
        (_process_incoming_dm st status chat author acct).1
        status2 chat2 author2 acct2).1 chat meta
      = some status.id := by
  obtain ⟨hid, hreply⟩ := process_dispatch_eff st status chat author acct h1
  refine ⟨?_, ?_, ?_, ?_⟩
  · intro hnone
    unfold send_resolve optNorm
    rw [hnone]
  · intro hsome hne
    unfold send_resolve
    rw [hsome]
    simp [hne]
  · unfold send_resolve
    rw [hreply, mapGet_mapSet_self]
    simp [hid]
  · unfold send_resolve
    rw [process_reply_frame _ status2 chat2 author2 acct2 chat (Ne.symm h2), hreply,
      mapGet_mapSet_self]
    simp [hid]

theorem C7_witness :
    send_resolve (_process_incoming_dm stW7 statusW7 "c1" "2" "bob").1 "c1" []
      = some "s1" ∧
    send_resolve (_process_incoming_dm
        (_process_incoming_dm stW7 statusW7 "c1" "2" "bob").1
        statusW7b "c2" "3" "carol").1 "c1" []
      = some "s1" := by
  have h := C7_reply_routing stW7 statusW7 statusW7b "c1" "2" "bob" "c2" "3"
    "carol" "v" [] (by decide) (by decide)
  exact ⟨h.2.2.1, h.2.2.2⟩

end Mastodon
